import Mathlib

/-!
Verification of the Sock-Shop test-automation framework's core modules
(`src/core/retry.py`, `src/core/browser_manager.py`,
`src/core/exceptions/base.py`, `src/core/exceptions/browser.py`)
against its natural-language specification.

The Python code is shallowly embedded: Python floats and wall-clock
instants are modelled as rationals (`ℚ`, seconds), Python dicts as
association lists, raised exceptions as explicit error values, and the
nondeterministic inputs (current time, random draws, outcomes of the
wrapped Playwright calls) as explicit parameters.
-/

namespace SockShop

/-! ## Circuit breaker (`retry.py`, class `CircuitBreaker`) -/

/-- State of a `CircuitBreaker` object (`retry.py` lines 206-229).
`state` is the literal Python string `"CLOSED"`, `"OPEN"` or `"HALF_OPEN"`;
`last_failure_time` is `None` or a wall-clock instant in seconds. -/
structure CircuitBreaker where
  failure_threshold : ℕ
  recovery_timeout : ℚ
  success_threshold : ℕ
  failure_count : ℕ
  success_count : ℕ
  last_failure_time : Option ℚ
  state : String
deriving DecidableEq, Repr

/-- `CircuitBreaker.__init__`: counts start at zero, no failure recorded,
circuit starts `"CLOSED"`. -/
def CircuitBreaker.init (failure_threshold : ℕ) (recovery_timeout : ℚ)
    (success_threshold : ℕ) : CircuitBreaker :=
  { failure_threshold := failure_threshold
    recovery_timeout := recovery_timeout
    success_threshold := success_threshold
    failure_count := 0
    success_count := 0
    last_failure_time := none
    state := "CLOSED" }

/-- `CircuitBreaker._should_attempt_reset` (lines 261-267):
true when no failure is recorded, or when
`(now - last_failure_time).total_seconds() >= recovery_timeout`. -/
def CircuitBreaker.should_attempt_reset (cb : CircuitBreaker) (now : ℚ) : Bool :=
  match cb.last_failure_time with
  | none => true
  | some t => decide (cb.recovery_timeout ≤ now - t)

/-- `CircuitBreaker._on_success` (lines 269-278): reset `failure_count`;
in `"HALF_OPEN"`, bump `success_count` and close the circuit once
`success_count >= success_threshold`. -/
def CircuitBreaker.on_success (cb : CircuitBreaker) : CircuitBreaker :=
  let cb := { cb with failure_count := 0 }
  if cb.state = "HALF_OPEN" then
    let cb := { cb with success_count := cb.success_count + 1 }
    if cb.success_threshold ≤ cb.success_count then
      { cb with state := "CLOSED", success_count := 0 }
    else cb
  else cb

/-- `CircuitBreaker._on_failure` (lines 280-296): bump `failure_count`,
zero `success_count`, record the failure instant; open the circuit from
`"CLOSED"` once the threshold is hit, and re-open it from `"HALF_OPEN"`. -/
def CircuitBreaker.on_failure (cb : CircuitBreaker) (now : ℚ) : CircuitBreaker :=
  let cb := { cb with
    failure_count := cb.failure_count + 1
    success_count := 0
    last_failure_time := some now }
  if cb.state = "CLOSED" ∧ cb.failure_threshold ≤ cb.failure_count then
    { cb with state := "OPEN" }
  else if cb.state = "HALF_OPEN" then
    { cb with state := "OPEN" }
  else cb

/-- The guard at the top of `CircuitBreaker.call` (lines 246-251): when the
circuit is `"OPEN"`, either move to `"HALF_OPEN"` (reset window elapsed)
or raise `Exception("Circuit breaker is OPEN - service unavailable")`
without touching the breaker. -/
def CircuitBreaker.callPre (cb : CircuitBreaker) (now : ℚ) :
    Except String CircuitBreaker :=
  if cb.state = "OPEN" then
    if cb.should_attempt_reset now then .ok { cb with state := "HALF_OPEN" }
    else .error "Circuit breaker is OPEN - service unavailable"
  else .ok cb

/-- Outcome of `CircuitBreaker.call`: the wrapped function returned a
value, the circuit-open exception was raised before invoking it, or the
wrapped function raised and its exception was re-raised. -/
inductive CallOutcome
  | ok
  | circuitOpen (msg : String)
  | funcRaised
deriving DecidableEq, Repr

/-- Result of `CircuitBreaker.call`: outcome, post-state of the breaker,
and whether the wrapped function was actually invoked. -/
structure CallResult where
  outcome : CallOutcome
  cb : CircuitBreaker
  invoked : Bool
deriving DecidableEq, Repr

/-- `CircuitBreaker.call` (lines 231-259). `now` is the instant of the
call; `funcSucceeds` tells whether `func(*args, **kwargs)` would return
normally or raise. -/
def CircuitBreaker.call (cb : CircuitBreaker) (now : ℚ) (funcSucceeds : Bool) :
    CallResult :=
  match cb.callPre now with
  | .error msg => { outcome := .circuitOpen msg, cb := cb, invoked := false }
  | .ok cb' =>
    if funcSucceeds then
      { outcome := .ok, cb := cb'.on_success, invoked := true }
    else
      { outcome := .funcRaised, cb := cb'.on_failure now, invoked := true }

/-- `n` consecutive failed calls through `_on_failure`, each stamped at
instant `now`. -/
def CircuitBreaker.failStreak (cb : CircuitBreaker) (now : ℚ) : ℕ → CircuitBreaker
  | 0 => cb
  | n + 1 => (cb.failStreak now n).on_failure now

/-- `n` consecutive successful calls through `_on_success`. -/
def CircuitBreaker.succStreak (cb : CircuitBreaker) : ℕ → CircuitBreaker
  | 0 => cb
  | n + 1 => (cb.succStreak n).on_success

/-! ## Exception classification enums (`exceptions/enums.py`) -/

/-- `ErrorSeverity` (`enums.py` lines 26-68). -/
inductive ErrorSeverity
  | LOW | MEDIUM | HIGH | CRITICAL
deriving DecidableEq, Repr

/-- `ErrorCategory` (`enums.py` lines 99-183). -/
inductive ErrorCategory
  | BROWSER | NETWORK | ELEMENT | DATA | CONFIGURATION | TIMEOUT
  | AUTHENTICATION | VALIDATION | INFRASTRUCTURE | TEST
deriving DecidableEq, Repr

/-! ## Python exception values and `isinstance`

The retry module inspects exceptions with `isinstance` against the
classes named in `RetryConfig`.  We model the classes that occur in the
repository (plus `ValueError` as a representative unrelated built-in)
and the subclass relation between them: the browser exceptions of
`exceptions/browser.py` derive from `AutomationException`
(`browser.py` line 28, and lines 88/158/238 deriving from
`BrowserException`). -/

/-- The Python exception classes relevant to `should_retry`. -/
inductive ExcClass
  | AutomationException
  | BrowserException
  | BrowserLaunchException
  | BrowserCrashException
  | BrowserNavigationException
  | ConnectionError
  | TimeoutError
  | KeyboardInterrupt
  | SystemExit
  | MemoryError
  | ValueError
  | AttributeError
deriving DecidableEq, Repr

/-- Ancestors of a class, itself included, per the class hierarchy of the
repository and of the Python builtins. -/
def ExcClass.ancestors : ExcClass → List ExcClass
  | .BrowserException => [.BrowserException, .AutomationException]
  | .BrowserLaunchException =>
      [.BrowserLaunchException, .BrowserException, .AutomationException]
  | .BrowserCrashException =>
      [.BrowserCrashException, .BrowserException, .AutomationException]
  | .BrowserNavigationException =>
      [.BrowserNavigationException, .BrowserException, .AutomationException]
  | c => [c]

/-- An exception instance: its concrete class, and the `severity` /
`category` attributes carried by every `AutomationException`
(read by `should_retry` only under an `isinstance` guard). -/
structure PyExc where
  cls : ExcClass
  severity : ErrorSeverity := .MEDIUM
  category : ErrorCategory := .INFRASTRUCTURE
deriving DecidableEq, Repr

/-- Python `isinstance(e, T)`. -/
def PyExc.isinstance (e : PyExc) (t : ExcClass) : Bool :=
  decide (t ∈ e.cls.ancestors)

/-! ## Retry configuration and pure retry functions (`retry.py`) -/

/-- `RetryStrategy` (`retry.py` lines 42-63). -/
inductive RetryStrategy
  | FIXED | LINEAR | EXPONENTIAL | EXPONENTIAL_JITTER | RANDOM
deriving DecidableEq, Repr

/-- `RetryConfig` (`retry.py` lines 66-127), with its default field
values.  The Python sets of exception classes / severities / categories
are modelled as lists (only membership is ever used). -/
structure RetryConfig where
  max_attempts : ℕ := 3
  base_delay : ℚ := 1
  max_delay : ℚ := 60
  strategy : RetryStrategy := .EXPONENTIAL_JITTER
  backoff_multiplier : ℚ := 2
  jitter_range : ℚ × ℚ := (4/5, 6/5)
  retryable_exceptions : List ExcClass :=
    [.AutomationException, .ConnectionError, .TimeoutError]
  non_retryable_exceptions : List ExcClass :=
    [.KeyboardInterrupt, .SystemExit, .MemoryError]
  retry_on_severity : List ErrorSeverity := [.LOW, .MEDIUM]
  retry_on_categories : List ErrorCategory := [.NETWORK, .TIMEOUT, .BROWSER]
deriving DecidableEq, Repr

/-- `calculate_delay` (`retry.py` lines 356-395).  `attempt` is the
1-based attempt number.  The two random draws of the
`EXPONENTIAL_JITTER` and `RANDOM` strategies
(`random.uniform(jitter_min, jitter_max)` and
`random.uniform(base_delay, max_delay)`) are passed in as the
parameters `jitterDraw` and `randomDraw`. -/
def calculate_delay (attempt : ℕ) (config : RetryConfig)
    (jitterDraw randomDraw : ℚ) : ℚ :=
  if attempt ≤ 1 then 0
  else
    let delay : ℚ :=
      match config.strategy with
      | .FIXED => config.base_delay
      | .LINEAR => config.base_delay * ((attempt : ℚ) - 1)
      | .EXPONENTIAL => config.base_delay * config.backoff_multiplier ^ (attempt - 2)
      | .EXPONENTIAL_JITTER =>
          config.base_delay * config.backoff_multiplier ^ (attempt - 2) * jitterDraw
      | .RANDOM => randomDraw
    min delay config.max_delay

/-- `should_retry` (`retry.py` lines 398-439). -/
def should_retry (exception : PyExc) (attempt : ℕ) (config : RetryConfig) : Bool :=
  if config.max_attempts ≤ attempt then false
  else if config.non_retryable_exceptions.any (fun t => exception.isinstance t) then
    false
  else if exception.isinstance .AutomationException ∧
      ¬ (exception.severity ∈ config.retry_on_severity) then
    false
  else if exception.isinstance .AutomationException ∧
      ¬ (exception.category ∈ config.retry_on_categories) then
    false
  else
    config.retryable_exceptions.any (fun t => exception.isinstance t)

/-! ## The retry loop (`retry.py`, `_execute_with_retry`, no circuit breaker)

`func` is modelled as a map from the 1-based attempt number to the
outcome of that invocation.  The loop body for the remaining attempt
numbers: return on the first normal result, otherwise continue while
`should_retry` allows and finally re-raise the last exception
(`raise stats.final_exception`, line 639).  The returned `ℕ` is the
number of invocations of `func` actually performed. -/

/-- The `for attempt in range(1, max_attempts + 1)` loop of
`_execute_with_retry` (lines 543-627) over the list of remaining attempt
numbers, threading `stats.final_exception` (`none` until a failure is
recorded). -/
def retryLoop {α : Type} (func : ℕ → Except PyExc α) (config : RetryConfig) :
    List ℕ → Option PyExc → Except (Option PyExc) α × ℕ
  | [], final_exception => (.error final_exception, 0)
  | attempt :: rest, final_exception =>
    match func attempt with
    | .ok result => (.ok result, 1)
    | .error e =>
      if should_retry e attempt config then
        let r := retryLoop func config rest (some e)
        (r.1, r.2 + 1)
      else
        (.error (some e), 1)

/-- `_execute_with_retry` (lines 512-639) without a circuit breaker:
run the loop over attempts `1, …, max_attempts`; an `.error` result is
the re-raise of `stats.final_exception`. -/
def execute_with_retry {α : Type} (func : ℕ → Except PyExc α) (config : RetryConfig) :
    Except (Option PyExc) α × ℕ :=
  retryLoop func config (List.range' 1 config.max_attempts) none

/-! ## `AutomationException.__init__` (`exceptions/base.py`)

The constructor is modelled as the source-ordered sequence of attribute
assignments on an attribute store whose fields start out *unassigned*
(`none`).  Reading an unassigned attribute raises Python's
`AttributeError`. -/

/-- A Python exception escaping from modelled code itself (as opposed to
an exception object that was constructed on purpose). -/
inductive PyError
  | AttributeError (attr : String)
deriving DecidableEq, Repr

/-- The attribute store of an exception object while
`AutomationException.__init__` runs: each attribute is `none` until the
corresponding assignment statement has executed. -/
structure ExcAttrs where
  message : Option String := none
  error_code : Option String := none
  correlation_id : Option String := none
  category : Option ErrorCategory := none
  severity : Option ErrorSeverity := none
  timestamp : Option String := none
deriving DecidableEq, Repr

/-- `AutomationException._generate_error_code` (`base.py` lines 191-195):
reads `self.__class__.__name__` and `self.timestamp`; reading the
`timestamp` attribute before it has been assigned raises
`AttributeError`.  `strftime("%Y%m%d_%H%M%S_%f")[:19]` is modelled by
`String.take 19` on the rendered instant. -/
def ExcAttrs.generate_error_code (self : ExcAttrs) (className : String) :
    Except PyError String :=
  match self.timestamp with
  | none => .error (.AttributeError "timestamp")
  | some ts =>
      .ok ((className.replace "Exception" "").toUpper ++ "_" ++ ts.take 19)

/-- `AutomationException.__init__` (`base.py` lines 117-189), keeping the
source's statement order.  `error_code`/`correlation_id` being `none`
models the Python argument being `None`; the empty string is likewise
falsy for `or`.  `now` is `datetime.now(timezone.utc)` rendered as a
string, `uuid` is the fresh `uuid4()`.  Crucially, line 149
(`self.error_code = error_code or self._generate_error_code()`) runs
before line 181 (`self.timestamp = ...`). -/
def automation_exception_init (className message : String)
    (error_code correlation_id : Option String)
    (category : ErrorCategory) (severity : ErrorSeverity)
    (now uuid : String) : Except PyError ExcAttrs := do
  let self : ExcAttrs := {}
  -- line 148: `self.message = message`
  let self := { self with message := some message }
  -- line 149: `self.error_code = error_code or self._generate_error_code()`
  let ec ← match error_code with
    | some ec => if ec = "" then self.generate_error_code className else pure ec
    | none => self.generate_error_code className
  let self := { self with error_code := some ec }
  -- line 150: `self.correlation_id = correlation_id or str(uuid4())`
  let self := { self with correlation_id := some (match correlation_id with
    | some cid => if cid = "" then uuid else cid
    | none => uuid) }
  -- lines 151-152: `self.category = category`, `self.severity = severity`
  let self := { self with category := some category, severity := some severity }
  -- line 181: `self.timestamp = datetime.now(timezone.utc)`
  let self := { self with timestamp := some now }
  pure self

/-- `BrowserException.__init__` (`browser.py` lines 36-78): defaults the
category to `BROWSER` and the severity to `HIGH` via
`kwargs.setdefault`, then delegates to `AutomationException.__init__`;
an `error_code` can only arrive through `**kwargs`. -/
def browser_exception_init (className message : String)
    (error_code : Option String) (severity : ErrorSeverity)
    (now uuid : String) : Except PyError ExcAttrs :=
  automation_exception_init className message error_code none
    .BROWSER severity now uuid

/-! ## Browser manager (`browser_manager.py`)

`BrowserManager._sessions : Dict[str, BrowserSession]` is modelled as an
association list with dict semantics (unique keys, assignment
overwrites, `del` removes).  Playwright handles (contexts, pages) are
opaque naturals; outcomes of the wrapped Playwright calls
(`launcher.launch`, `browser.new_context`, `context.new_page`,
`page.goto`, the `close()` calls) are explicit parameters.  Every
manager operation returns the post-state of the manager together with
its Python result: either a return value or a raised exception. -/

/-- `dict[key]` lookup. -/
def dictLookup {β : Type} : List (String × β) → String → Option β
  | [], _ => none
  | (k, v) :: rest, key => if k = key then some v else dictLookup rest key

/-- `dict[key] = value` (overwrites an existing key). -/
def dictInsert {β : Type} : List (String × β) → String → β → List (String × β)
  | [], key, v => [(key, v)]
  | (k, w) :: rest, key, v =>
    if k = key then (key, v) :: rest else (k, w) :: dictInsert rest key v

/-- `del dict[key]`. -/
def dictErase {β : Type} : List (String × β) → String → List (String × β)
  | [], _ => []
  | (k, w) :: rest, key => if k = key then rest else (k, w) :: dictErase rest key

/-- `BrowserSession` (`browser_manager.py` lines 65-94). -/
structure Session where
  session_id : String
  browser_name : String
  contexts : List ℕ
  pages : List ℕ
  created_at : ℚ
  last_activity : ℚ
deriving DecidableEq, Repr

/-- The mutable state of a `BrowserManager` together with the settings
it reads (`settings.browser.max_concurrent_browsers`, and the hard-coded
`_max_idle_time = timedelta(hours=1)`). -/
structure BrowserManager where
  sessions : List (String × Session)
  max_concurrent_browsers : ℕ
  max_idle_time : ℚ
deriving DecidableEq, Repr

/-- An exception propagating out of a manager operation: either an
exception object that finished construction, or a `PyError` that
escaped from the exception's own `__init__`. -/
inductive RaisedExc
  | exc (cls : String) (attrs : ExcAttrs)
  | pyError (e : PyError)
deriving DecidableEq, Repr

/-- `raise SomeBrowserException(message, ...)` as it appears in
`browser_manager.py`: none of the raise sites passes an `error_code`,
so the outcome is whatever the constructor produces. -/
def raise_browser_exc (cls message : String) (severity : ErrorSeverity)
    (now uuid : String) : RaisedExc :=
  match browser_exception_init cls message none severity now uuid with
  | .ok attrs => .exc cls attrs
  | .error e => .pyError e

/-- `raise BrowserException(message)` (severity defaults to `HIGH`). -/
def raise_BrowserException (message : String) (now uuid : String) : RaisedExc :=
  raise_browser_exc "BrowserException" message .HIGH now uuid

/-- `raise BrowserCrashException(message, ...)`: `BrowserCrashException.__init__`
(`browser.py` lines 166-195) defaults severity to `CRITICAL` and
prefixes the message with `"Browser crashed: "`. -/
def raise_BrowserCrashException (message : String) (now uuid : String) : RaisedExc :=
  raise_browser_exc "BrowserCrashException" ("Browser crashed: " ++ message)
    .CRITICAL now uuid

/-- `raise BrowserNavigationException(message, ...)` (`browser.py` lines
246-275): severity defaults to `MEDIUM`, message prefixed with
`"Navigation failed: "`. -/
def raise_BrowserNavigationException (message : String) (now uuid : String) :
    RaisedExc :=
  raise_browser_exc "BrowserNavigationException" ("Navigation failed: " ++ message)
    .MEDIUM now uuid

/-- `raise BrowserLaunchException(message, ...)` (`browser.py` lines
97-125): severity defaults to `CRITICAL`, message prefixed with
`"Failed to launch browser: "`. -/
def raise_BrowserLaunchException (message : String) (now uuid : String) :
    RaisedExc :=
  raise_browser_exc "BrowserLaunchException" ("Failed to launch browser: " ++ message)
    .CRITICAL now uuid

/-- `l₁` is a prefix of `l₂` (character lists). -/
def charsPrefix : List Char → List Char → Bool
  | [], _ => true
  | _ :: _, [] => false
  | a :: as, b :: bs => a == b && charsPrefix as bs

/-- `l₁` occurs as a contiguous run inside `l₂` (character lists). -/
def charsInfix (needle : List Char) : List Char → Bool
  | [] => charsPrefix needle []
  | b :: bs => charsPrefix needle (b :: bs) || charsInfix needle bs

/-- Python `needle in haystack` on strings. -/
def strContains (haystack needle : String) : Bool :=
  charsInfix needle.toList haystack.toList

/-- Python `s.lower()` (ASCII case folding). -/
def strLower (s : String) : String :=
  String.mk (s.data.map Char.toLower)

/-- `BrowserManager.close_session` (lines 529-585).  The per-page and
per-context `close()` calls sit in `try/except` blocks that only log
(lines 548-559), so `pageCloseRaises`/`ctxCloseRaises` cannot influence
the result; only `session.browser.close()` (line 562) throws into the
outer handler, which logs, still deletes the session (lines 583-584)
and returns `False`. -/
def BrowserManager.close_session (m : BrowserManager) (session_id : String)
    (pageCloseRaises ctxCloseRaises browserCloseRaises : Bool) :
    BrowserManager × Bool :=
  match dictLookup m.sessions session_id with
  | none => (m, false)
  | some _ =>
    let _ := pageCloseRaises
    let _ := ctxCloseRaises
    if browserCloseRaises then
      ({ m with sessions := dictErase m.sessions session_id }, false)
    else
      ({ m with sessions := dictErase m.sessions session_id }, true)

/-- `BrowserManager._cleanup_idle_sessions` (lines 1025-1044): close
every session idle strictly longer than `_max_idle_time`, counting the
successful closes. -/
def BrowserManager.cleanup_idle_sessions (m : BrowserManager) (now : ℚ)
    (browserCloseRaises : String → Bool) : BrowserManager × ℕ :=
  let idle_sessions := (m.sessions.filter
    (fun p => decide (m.max_idle_time < now - p.2.last_activity))).map Prod.fst
  idle_sessions.foldl
    (fun acc session_id =>
      let r := acc.1.close_session session_id false false (browserCloseRaises session_id)
      (r.1, acc.2 + if r.2 then 1 else 0))
    (m, 0)

/-- `BrowserManager.launch_browser` (lines 347-446), with the Playwright
launch outcome passed in as `launchResult`.  Lines 368-375: when at the
concurrent-browser limit, first reclaim idle sessions, and if still at
the limit raise `BrowserException("Maximum concurrent browsers
reached", severity=HIGH)`.  Otherwise resolve the launcher (unsupported
names raise `BrowserLaunchException`), launch, and on success insert
the fresh `BrowserSession` under `session_id`. -/
def BrowserManager.launch_browser (m : BrowserManager) (now : ℚ)
    (session_id browser_name : String) (launchResult : Except String Unit)
    (browserCloseRaises : String → Bool) (excNow excUuid : String) :
    BrowserManager × Except RaisedExc Session :=
  let m1 := if m.max_concurrent_browsers ≤ m.sessions.length then
    (m.cleanup_idle_sessions now browserCloseRaises).1 else m
  if m1.max_concurrent_browsers ≤ m1.sessions.length then
    (m1, .error (raise_browser_exc "BrowserException"
      "Maximum concurrent browsers reached" .HIGH excNow excUuid))
  else if browser_name = "chromium" ∨ browser_name = "chrome" ∨
      browser_name = "firefox" ∨ browser_name = "webkit" ∨
      browser_name = "safari" then
    match launchResult with
    | .ok _ =>
      let session : Session :=
        { session_id := session_id
          browser_name := browser_name
          contexts := []
          pages := []
          created_at := now
          last_activity := now }
      ({ m1 with sessions := dictInsert m1.sessions session_id session }, .ok session)
    | .error e =>
      -- lines 430-446: the launch failure is wrapped in a
      -- `BrowserLaunchException` whichever keyword branch fires
      let el := strLower e
      if strContains el "executable" then
        (m1, .error (raise_BrowserLaunchException
          ("Browser executable not found: " ++ e) excNow excUuid))
      else if strContains el "timeout" then
        (m1, .error (raise_BrowserLaunchException
          ("Browser launch timeout: " ++ e) excNow excUuid))
      else
        (m1, .error (raise_BrowserLaunchException
          ("Browser launch failed: " ++ e) excNow excUuid))
  else
    (m1, .error (raise_BrowserLaunchException
      ("Unsupported browser: " ++ browser_name) excNow excUuid))

/-- `BrowserManager.create_context` (lines 630-683): look the session
up (missing ids raise `BrowserException(..., severity=HIGH)`), stamp
`update_activity()`, call `browser.new_context`, and on success append
the new context to `session.contexts`.  On failure, crash keywords in
the error select `BrowserCrashException`, otherwise `BrowserException`. -/
def BrowserManager.create_context (m : BrowserManager) (now : ℚ)
    (session_id : String) (context_handle : ℕ)
    (newContextResult : Except String Unit) (excNow excUuid : String) :
    BrowserManager × Except RaisedExc ℕ :=
  match dictLookup m.sessions session_id with
  | none =>
    (m, .error (raise_BrowserException ("Session " ++ session_id ++ " not found")
      excNow excUuid))
  | some session =>
    let session := { session with last_activity := now }
    let m := { m with sessions := dictInsert m.sessions session_id session }
    match newContextResult with
    | .ok _ =>
      let session := { session with contexts := session.contexts ++ [context_handle] }
      ({ m with sessions := dictInsert m.sessions session_id session },
        .ok context_handle)
    | .error e =>
      let el := strLower e
      if strContains el "crash" ∨ strContains el "terminated" ∨
          strContains el "disconnected" then
        (m, .error (raise_BrowserCrashException
          ("Browser crashed while creating context: " ++ e) excNow excUuid))
      else
        (m, .error (raise_BrowserException ("Failed to create context: " ++ e)
          excNow excUuid))

/-- `BrowserManager.create_page` (lines 711-758): look the session up,
stamp `update_activity()`; with `context=None` first create a fresh
context through `create_context` (inside the same `try`, so its
exception is re-wrapped by the outer handler), then `context.new_page()`
and on success append the new page to `session.pages`. -/
def BrowserManager.create_page (m : BrowserManager) (now : ℚ)
    (session_id : String) (context : Option ℕ) (context_handle page_handle : ℕ)
    (newContextResult newPageResult : Except String Unit)
    (excNow excUuid : String) :
    BrowserManager × Except RaisedExc ℕ :=
  match dictLookup m.sessions session_id with
  | none =>
    (m, .error (raise_BrowserException ("Session " ++ session_id ++ " not found")
      excNow excUuid))
  | some session =>
    let session := { session with last_activity := now }
    let m := { m with sessions := dictInsert m.sessions session_id session }
    let afterContext : BrowserManager × Except RaisedExc ℕ :=
      match context with
      | some c => (m, .ok c)
      | none => m.create_context now session_id context_handle newContextResult
          excNow excUuid
    match afterContext.2 with
    | .error e =>
      -- the inner exception lands in the outer handler of `create_page`
      -- (lines 747-758) and is re-wrapped there
      let _ := e
      (afterContext.1, .error (raise_BrowserException "Failed to create page"
        excNow excUuid))
    | .ok _ =>
      let m := afterContext.1
      match newPageResult with
      | .ok _ =>
        match dictLookup m.sessions session_id with
        | none => (m, .error (.pyError (.AttributeError "unreachable")))
        | some session =>
          let session := { session with pages := session.pages ++ [page_handle] }
          ({ m with sessions := dictInsert m.sessions session_id session },
            .ok page_handle)
      | .error e =>
        let el := strLower e
        if strContains el "crash" ∨ strContains el "terminated" ∨
            strContains el "disconnected" then
          (m, .error (raise_BrowserCrashException
            ("Browser crashed while creating page: " ++ e) excNow excUuid))
        else
          (m, .error (raise_BrowserException ("Failed to create page: " ++ e)
            excNow excUuid))

/-- The exception-class selection of `navigate_to`'s error handler
(lines 849-873): crash keywords take precedence over navigation
keywords, anything else is a plain `BrowserException`. -/
def navigate_error_class (e : String) : String :=
  let error_message := strLower e
  if strContains error_message "crash" ∨ strContains error_message "terminated" ∨
      strContains error_message "disconnected" ∨ strContains error_message "closed" then
    "BrowserCrashException"
  else if strContains error_message "timeout" ∨ strContains error_message "net::" ∨
      strContains error_message "dns" ∨ strContains error_message "connection" then
    "BrowserNavigationException"
  else
    "BrowserException"

/-- `BrowserManager.navigate_to` (lines 792-873): look the session up,
stamp `update_activity()`, require at least one page, run `page.goto`
on the first page (`gotoResult`), return `True` on success; on failure
raise the exception selected by `navigate_error_class`. -/
def BrowserManager.navigate_to (m : BrowserManager) (now : ℚ)
    (session_id url : String) (gotoResult : Except String Unit)
    (excNow excUuid : String) :
    BrowserManager × Except RaisedExc Bool :=
  match dictLookup m.sessions session_id with
  | none =>
    (m, .error (raise_BrowserException ("Session " ++ session_id ++ " not found")
      excNow excUuid))
  | some session =>
    let session := { session with last_activity := now }
    let m := { m with sessions := dictInsert m.sessions session_id session }
    if session.pages = [] then
      (m, .error (raise_BrowserException "No pages available for navigation"
        excNow excUuid))
    else
      match gotoResult with
      | .ok _ => (m, .ok true)
      | .error e =>
        (m, .error (
          if navigate_error_class e = "BrowserCrashException" then
            raise_BrowserCrashException ("Browser crashed during navigation to " ++ url)
              excNow excUuid
          else if navigate_error_class e = "BrowserNavigationException" then
            raise_BrowserNavigationException
              ("Navigation to " ++ url ++ " failed: " ++ e) excNow excUuid
          else
            raise_BrowserException ("Unexpected error during navigation: " ++ e)
              excNow excUuid))

/-- `BrowserManager.get_session` (lines 996-998). -/
def BrowserManager.get_session (m : BrowserManager) (session_id : String) :
    Option Session :=
  dictLookup m.sessions session_id

/-- `BrowserManager.list_sessions` (lines 1000-1002). -/
def BrowserManager.list_sessions (m : BrowserManager) : List Session :=
  m.sessions.map Prod.snd

/-- A concrete session `"s1"` owning one page, for evaluating the
operations at concrete inputs. -/
def sampleSession : Session :=
  { session_id := "s1"
    browser_name := "chromium"
    contexts := []
    pages := [0]
    created_at := 0
    last_activity := 0 }

/-- A manager tracking only `sampleSession`, with room for more
sessions. -/
def sampleManager : BrowserManager :=
  { sessions := [("s1", sampleSession)]
    max_concurrent_browsers := 3
    max_idle_time := 3600 }

/-- A manager tracking only `sampleSession` and already at its
concurrent-browser limit, with the session freshly active (so the idle
cleanup reclaims nothing at instant 0). -/
def limitManager : BrowserManager :=
  { sessions := [("s1", sampleSession)]
    max_concurrent_browsers := 1
    max_idle_time := 3600 }

/-! ## Theorems -/

/-- Field-level description of `_on_failure`. -/
theorem on_failure_fields (cb : CircuitBreaker) (now : ℚ) :
    (cb.on_failure now).failure_threshold = cb.failure_threshold ∧
    (cb.on_failure now).success_threshold = cb.success_threshold ∧
    (cb.on_failure now).recovery_timeout = cb.recovery_timeout ∧
    (cb.on_failure now).failure_count = cb.failure_count + 1 ∧
    (cb.on_failure now).success_count = 0 ∧
    (cb.on_failure now).last_failure_time = some now ∧
    (cb.on_failure now).state =
      (if cb.state = "CLOSED" ∧ cb.failure_threshold ≤ cb.failure_count + 1
        then "OPEN"
        else if cb.state = "HALF_OPEN" then "OPEN" else cb.state) := by
  simp only [CircuitBreaker.on_failure]
  split_ifs <;> simp_all

/-- Field-level description of `_on_success`. -/
theorem on_success_fields (cb : CircuitBreaker) :
    cb.on_success.failure_threshold = cb.failure_threshold ∧
    cb.on_success.success_threshold = cb.success_threshold ∧
    cb.on_success.recovery_timeout = cb.recovery_timeout ∧
    cb.on_success.last_failure_time = cb.last_failure_time ∧
    cb.on_success.failure_count = 0 ∧
    cb.on_success.state =
      (if cb.state = "HALF_OPEN" ∧ cb.success_threshold ≤ cb.success_count + 1
        then "CLOSED" else cb.state) ∧
    cb.on_success.success_count =
      (if cb.state = "HALF_OPEN" then
        (if cb.success_threshold ≤ cb.success_count + 1 then 0
          else cb.success_count + 1)
        else cb.success_count) := by
  simp only [CircuitBreaker.on_success]
  split_ifs <;> simp_all

/-- A failure streak starting from `"CLOSED"`: counts accumulate, the
circuit opens exactly once the threshold is reached (by at least one
failure). -/
theorem failStreak_spec (cb : CircuitBreaker) (now : ℚ)
    (hst : cb.state = "CLOSED") (n : ℕ) :
    (cb.failStreak now n).failure_threshold = cb.failure_threshold ∧
    (cb.failStreak now n).failure_count = cb.failure_count + n ∧
    (cb.failStreak now n).state =
      (if cb.failure_threshold ≤ cb.failure_count + n ∧ 1 ≤ n
        then "OPEN" else "CLOSED") := by
  induction n with
  | zero => simp [CircuitBreaker.failStreak, hst]
  | succ k ih =>
    obtain ⟨hth, hfc, hstate⟩ := ih
    have hf := on_failure_fields (cb.failStreak now k) now
    refine ⟨?_, ?_, ?_⟩
    · simp [CircuitBreaker.failStreak, hf.1, hth]
    · simp only [CircuitBreaker.failStreak, hf.2.2.2.1, hfc]; omega
    · simp only [CircuitBreaker.failStreak, hf.2.2.2.2.2.2, hstate, hth, hfc]
      by_cases hcond : cb.failure_threshold ≤ cb.failure_count + k ∧ 1 ≤ k
      · rw [if_pos hcond]
        have h1 : ¬ (("OPEN" : String) = "CLOSED" ∧
            cb.failure_threshold ≤ cb.failure_count + k + 1) := by
          rintro ⟨h, -⟩; exact absurd h (by decide)
        rw [if_neg h1, if_neg (by decide), if_pos (by omega)]
      · rw [if_neg hcond]
        by_cases h2 : cb.failure_threshold ≤ cb.failure_count + k + 1
        · rw [if_pos ⟨rfl, h2⟩, if_pos (by omega)]
        · rw [if_neg (by tauto), if_neg (by decide), if_neg (by omega)]

/-- A success streak starting from `"HALF_OPEN"` with `success_count = 0`:
the count accumulates until the threshold is reached, at which point the
circuit closes and the count resets. -/
theorem succStreak_spec (cb : CircuitBreaker)
    (hst : cb.state = "HALF_OPEN") (h0 : cb.success_count = 0) (n : ℕ) :
    (cb.succStreak n).success_threshold = cb.success_threshold ∧
    (cb.succStreak n).state =
      (if cb.success_threshold ≤ n ∧ 1 ≤ n then "CLOSED" else "HALF_OPEN") ∧
    (cb.succStreak n).success_count =
      (if cb.success_threshold ≤ n ∧ 1 ≤ n then 0 else n) := by
  induction n with
  | zero => simp [CircuitBreaker.succStreak, hst, h0]
  | succ k ih =>
    obtain ⟨hth, hstate, hcount⟩ := ih
    have hs := on_success_fields (cb.succStreak k)
    refine ⟨?_, ?_, ?_⟩
    · simp [CircuitBreaker.succStreak, hs.2.1, hth]
    · show ((cb.succStreak k).on_success).state = _
      rw [hs.2.2.2.2.2.1, hth]
      by_cases hcond : cb.success_threshold ≤ k ∧ 1 ≤ k
      · have hstate' : (cb.succStreak k).state = "CLOSED" := by
          rw [hstate, if_pos hcond]
        rw [hstate', if_neg (by rintro ⟨h, -⟩; exact absurd h (by decide)),
          if_pos ⟨by omega, by omega⟩]
      · have hstate' : (cb.succStreak k).state = "HALF_OPEN" := by
          rw [hstate, if_neg hcond]
        have hcount' : (cb.succStreak k).success_count = k := by
          rw [hcount, if_neg hcond]
        rw [hstate', hcount']
        by_cases h2 : cb.success_threshold ≤ k + 1
        · rw [if_pos ⟨rfl, h2⟩, if_pos ⟨h2, by omega⟩]
        · rw [if_neg (by tauto), if_neg (by omega)]
    · show ((cb.succStreak k).on_success).success_count = _
      rw [hs.2.2.2.2.2.2, hth]
      by_cases hcond : cb.success_threshold ≤ k ∧ 1 ≤ k
      · have hstate' : (cb.succStreak k).state = "CLOSED" := by
          rw [hstate, if_pos hcond]
        have hcount' : (cb.succStreak k).success_count = 0 := by
          rw [hcount, if_pos hcond]
        rw [hstate', if_neg (by decide), hcount',
          if_pos ⟨by omega, by omega⟩]
      · have hstate' : (cb.succStreak k).state = "HALF_OPEN" := by
          rw [hstate, if_neg hcond]
        have hcount' : (cb.succStreak k).success_count = k := by
          rw [hcount, if_neg hcond]
        rw [hstate', hcount', if_pos rfl]
        by_cases h2 : cb.success_threshold ≤ k + 1
        · rw [if_pos h2, if_pos ⟨h2, by omega⟩]
        · rw [if_neg h2, if_neg (by omega)]

/-- C1: while the circuit is `"OPEN"` and strictly less than
`recovery_timeout` seconds have passed since `last_failure_time`,
`call` raises `Exception("Circuit breaker is OPEN - service
unavailable")` without invoking the wrapped function and without
changing the breaker; once at least `recovery_timeout` seconds have
passed (or no failure time is recorded), the state moves to
`"HALF_OPEN"` and the wrapped function is invoked. -/
theorem circuit_breaker_open_gating (cb : CircuitBreaker) (now : ℚ)
    (funcSucceeds : Bool) (hst : cb.state = "OPEN") :
    ((∃ t, cb.last_failure_time = some t ∧ now - t < cb.recovery_timeout) →
      cb.call now funcSucceeds =
        { outcome := .circuitOpen "Circuit breaker is OPEN - service unavailable",
          cb := cb,
          invoked := false }) ∧
    ((cb.last_failure_time = none ∨
        ∃ t, cb.last_failure_time = some t ∧ cb.recovery_timeout ≤ now - t) →
      (cb.call now funcSucceeds).invoked = true ∧
      cb.callPre now = .ok { cb with state := "HALF_OPEN" }) := by
  constructor
  · rintro ⟨t, ht, hlt⟩
    have hres : cb.should_attempt_reset now = false := by
      simp only [CircuitBreaker.should_attempt_reset, ht,
        decide_eq_false_iff_not, not_le]
      exact hlt
    simp [CircuitBreaker.call, CircuitBreaker.callPre, hst, hres]
  · intro h
    have hres : cb.should_attempt_reset now = true := by
      rcases h with h | ⟨t, ht, hge⟩
      · simp [CircuitBreaker.should_attempt_reset, h]
      · simp [CircuitBreaker.should_attempt_reset, ht, hge]
    cases funcSucceeds <;>
      simp [CircuitBreaker.call, CircuitBreaker.callPre, hst, hres]

/-- Witness for C1: an open breaker with a failure recorded at instant 0
and a 60-second recovery window rejects a call at instant 30 untouched. -/
theorem circuit_breaker_open_gating_witness :
    (⟨5, 60, 2, 5, 0, some 0, "OPEN"⟩ : CircuitBreaker).call 30 true =
      { outcome := .circuitOpen "Circuit breaker is OPEN - service unavailable",
        cb := ⟨5, 60, 2, 5, 0, some 0, "OPEN"⟩,
        invoked := false } :=
  (circuit_breaker_open_gating ⟨5, 60, 2, 5, 0, some 0, "OPEN"⟩ 30 true rfl).1
    ⟨0, rfl, by norm_num⟩

/-- C2: the breaker state is always one of `"CLOSED"`, `"OPEN"`,
`"HALF_OPEN"`; any success resets `failure_count`; from `"CLOSED"`,
`failure_threshold` consecutive failures (and no fewer) open the
circuit while a success leaves it closed; from `"HALF_OPEN"`, a single
failure re-opens it and `success_threshold` consecutive successes close
it with `success_count` reset to 0. -/
theorem circuit_breaker_transitions (cb : CircuitBreaker) (now : ℚ)
    (funcSucceeds : Bool) :
    ((cb.state = "CLOSED" ∨ cb.state = "OPEN" ∨ cb.state = "HALF_OPEN") →
      ((cb.call now funcSucceeds).cb.state = "CLOSED" ∨
       (cb.call now funcSucceeds).cb.state = "OPEN" ∨
       (cb.call now funcSucceeds).cb.state = "HALF_OPEN")) ∧
    cb.on_success.failure_count = 0 ∧
    (cb.state = "CLOSED" →
      cb.on_success.state = "CLOSED" ∧
      (cb.failure_count = 0 → 1 ≤ cb.failure_threshold →
        (∀ n, n < cb.failure_threshold →
          (cb.failStreak now n).state = "CLOSED") ∧
        (cb.failStreak now cb.failure_threshold).state = "OPEN")) ∧
    (cb.state = "HALF_OPEN" →
      (cb.on_failure now).state = "OPEN" ∧
      (cb.success_count = 0 → 1 ≤ cb.success_threshold →
        (∀ n, n < cb.success_threshold →
          (cb.succStreak n).state = "HALF_OPEN") ∧
        (cb.succStreak cb.success_threshold).state = "CLOSED" ∧
        (cb.succStreak cb.success_threshold).success_count = 0)) := by
  refine ⟨?_, (on_success_fields cb).2.2.2.2.1, fun hc => ⟨?_, fun h0 h1 => ?_⟩,
    fun hh => ⟨?_, fun h0 h1 => ?_⟩⟩
  · intro hset
    have step : ∀ c : CircuitBreaker,
        (c.state = "CLOSED" ∨ c.state = "OPEN" ∨ c.state = "HALF_OPEN") →
        (c.on_success.state = "CLOSED" ∨ c.on_success.state = "OPEN" ∨
          c.on_success.state = "HALF_OPEN") ∧
        ((c.on_failure now).state = "CLOSED" ∨ (c.on_failure now).state = "OPEN" ∨
          (c.on_failure now).state = "HALF_OPEN") := by
      intro c hcset
      have hs := (on_success_fields c).2.2.2.2.2.1
      have hf := (on_failure_fields c now).2.2.2.2.2.2
      constructor
      · rw [hs]; split_ifs <;> tauto
      · rw [hf]; split_ifs <;> tauto
    have hpreCases : ∀ cb' : CircuitBreaker, cb.callPre now = .ok cb' →
        cb'.state = "HALF_OPEN" ∨ cb' = cb := by
      intro cb' h
      unfold CircuitBreaker.callPre at h
      by_cases g1 : cb.state = "OPEN"
      · rw [if_pos g1] at h
        by_cases g2 : cb.should_attempt_reset now = true
        · rw [if_pos g2] at h
          injection h with h'
          left
          rw [← h']
        · rw [if_neg g2] at h
          exact absurd h (by simp)
      · rw [if_neg g1] at h
        injection h with h'
        right
        rw [← h']
    unfold CircuitBreaker.call
    cases hpre : cb.callPre now with
    | error msg => simpa using hset
    | ok cb' =>
      have hset' : cb'.state = "CLOSED" ∨ cb'.state = "OPEN" ∨
          cb'.state = "HALF_OPEN" := by
        rcases hpreCases cb' hpre with h | h
        · tauto
        · rw [h]; exact hset
      cases funcSucceeds with
      | false => simpa using (step cb' hset').2
      | true => simpa using (step cb' hset').1
  · have hs := (on_success_fields cb).2.2.2.2.2.1
    rw [hs, if_neg (by rw [hc]; rintro ⟨h, -⟩; exact absurd h (by decide)), hc]
  · constructor
    · intro n hn
      have h := (failStreak_spec cb now hc n).2.2
      rw [h, if_neg (by omega)]
    · have h := (failStreak_spec cb now hc cb.failure_threshold).2.2
      rw [h, if_pos (by omega)]
  · have hf := (on_failure_fields cb now).2.2.2.2.2.2
    rw [hf, if_neg (by rw [hh]; rintro ⟨h, -⟩; exact absurd h (by decide)),
      if_pos hh]
  · refine ⟨fun n hn => ?_, ?_, ?_⟩
    · have h := (succStreak_spec cb hh h0 n).2.1
      rw [h, if_neg (by omega)]
    · have h := (succStreak_spec cb hh h0 cb.success_threshold).2.1
      rw [h, if_pos (by omega)]
    · have h := (succStreak_spec cb hh h0 cb.success_threshold).2.2
      rw [h, if_pos (by omega)]

/-- Witness for C2: a fresh breaker with thresholds 2/2: two failures
open it, and from half-open two successes close it with the counter
reset. -/
theorem circuit_breaker_transitions_witness :
    ((CircuitBreaker.init 2 60 2).failStreak 0 2).state = "OPEN" ∧
    ((⟨2, 60, 2, 0, 0, some 0, "HALF_OPEN"⟩ : CircuitBreaker).succStreak 2).state
      = "CLOSED" := by
  constructor
  · exact ((circuit_breaker_transitions (CircuitBreaker.init 2 60 2) 0
      true).2.2.1 rfl).2 rfl (by decide) |>.2
  · exact ((circuit_breaker_transitions
      (⟨2, 60, 2, 0, 0, some 0, "HALF_OPEN"⟩ : CircuitBreaker) 0
      true).2.2.2 rfl).2 rfl (by decide) |>.2.1

/-- C3: `calculate_delay` returns `0.0` for `attempt <= 1`; for later
attempts the `FIXED` strategy gives `min(base_delay, max_delay)`,
`LINEAR` gives `min(base_delay * (attempt - 1), max_delay)` and
`EXPONENTIAL` gives
`min(base_delay * backoff_multiplier ^ (attempt - 2), max_delay)`; and
whatever the strategy and random draws, the result never exceeds
`max_delay` (given `base_delay >= 0` and `max_delay >= 0`). -/
theorem calculate_delay_spec (attempt : ℕ) (config : RetryConfig)
    (jitterDraw randomDraw : ℚ)
    (hb : 0 ≤ config.base_delay) (hm : 0 ≤ config.max_delay) :
    (attempt ≤ 1 → calculate_delay attempt config jitterDraw randomDraw = 0) ∧
    (2 ≤ attempt →
      (config.strategy = .FIXED →
        calculate_delay attempt config jitterDraw randomDraw =
          min config.base_delay config.max_delay) ∧
      (config.strategy = .LINEAR →
        calculate_delay attempt config jitterDraw randomDraw =
          min (config.base_delay * ((attempt : ℚ) - 1)) config.max_delay) ∧
      (config.strategy = .EXPONENTIAL →
        calculate_delay attempt config jitterDraw randomDraw =
          min (config.base_delay * config.backoff_multiplier ^ (attempt - 2))
            config.max_delay)) ∧
    calculate_delay attempt config jitterDraw randomDraw ≤ config.max_delay := by
  refine ⟨fun h => by simp [calculate_delay, h], fun h2 => ?_, ?_⟩
  · have h1 : ¬ attempt ≤ 1 := by omega
    refine ⟨fun hs => ?_, fun hs => ?_, fun hs => ?_⟩ <;>
      simp [calculate_delay, h1, hs]
  · by_cases h1 : attempt ≤ 1
    · simpa [calculate_delay, h1] using hm
    · simp only [calculate_delay, h1, if_false]
      exact min_le_right _ _

/-- Witness for C3 at `attempt = 4` with the `EXPONENTIAL` strategy and
the default configuration values. -/
theorem calculate_delay_spec_witness :
    calculate_delay 4 { strategy := .EXPONENTIAL } 1 1 =
      min ((1 : ℚ) * 2 ^ (4 - 2)) 60 ∧
    calculate_delay 4 { strategy := .EXPONENTIAL } 1 1 ≤ 60 := by
  have h := calculate_delay_spec 4 { strategy := .EXPONENTIAL } 1 1
    (by norm_num) (by norm_num)
  exact ⟨(h.2.1 (by norm_num)).2.2 rfl, h.2.2⟩

/-- C4: `should_retry` returns `False` once `attempt >= max_attempts` or
when the exception matches a non-retryable class; otherwise an
`AutomationException` (with `AutomationException` among the retryable
classes) is retried exactly when its severity and category are both
allowed, and a non-`AutomationException` is retried exactly when it is
an instance of some retryable class. -/
theorem should_retry_spec (e : PyExc) (n : ℕ) (c : RetryConfig) :
    ((c.max_attempts ≤ n ∨
        c.non_retryable_exceptions.any (fun t => e.isinstance t) = true) →
      should_retry e n c = false) ∧
    (n < c.max_attempts →
      c.non_retryable_exceptions.any (fun t => e.isinstance t) = false →
      e.isinstance .AutomationException = true →
      .AutomationException ∈ c.retryable_exceptions →
      (should_retry e n c = true ↔
        e.severity ∈ c.retry_on_severity ∧ e.category ∈ c.retry_on_categories)) ∧
    (n < c.max_attempts →
      c.non_retryable_exceptions.any (fun t => e.isinstance t) = false →
      e.isinstance .AutomationException = false →
      (should_retry e n c = true ↔
        c.retryable_exceptions.any (fun t => e.isinstance t) = true)) := by
  refine ⟨fun h => ?_, fun h1 h2 h3 h4 => ?_, fun h1 h2 h3 => ?_⟩
  · rcases h with h | h
    · simp [should_retry, h]
    · unfold should_retry
      split_ifs with g1 g2 <;> simp_all
  · have hmax : ¬ c.max_attempts ≤ n := by omega
    by_cases hs : e.severity ∈ c.retry_on_severity <;>
      by_cases hc : e.category ∈ c.retry_on_categories <;>
      simp [should_retry, hmax, h2, h3, hs, hc]
    exact ⟨.AutomationException, h4, h3⟩
  · have hmax : ¬ c.max_attempts ≤ n := by omega
    simp [should_retry, hmax, h2, h3]

/-- Witness for C4: a `BrowserException` (an `AutomationException`
subclass) with `MEDIUM` severity and `BROWSER` category is retryable at
attempt 1 under the default configuration. -/
theorem should_retry_spec_witness :
    should_retry ⟨.BrowserException, .MEDIUM, .BROWSER⟩ 1 {} = true ↔
    (ErrorSeverity.MEDIUM ∈ ({} : RetryConfig).retry_on_severity ∧
      ErrorCategory.BROWSER ∈ ({} : RetryConfig).retry_on_categories) :=
  (should_retry_spec ⟨.BrowserException, .MEDIUM, .BROWSER⟩ 1 {}).2.1
    (by decide) (by decide) (by decide) (by decide)

/-- `should_retry` is always `False` at the final attempt. -/
theorem should_retry_at_max (e : PyExc) (config : RetryConfig) :
    should_retry e config.max_attempts config = false := by
  simp [should_retry]

/-- Behaviour of the loop of `_execute_with_retry` over the attempt
numbers `a, …, a + m - 1`: some `k + 1 ≤ m` attempts run, the first `k`
fail with `should_retry` true, and the last either succeeds or fails
with either `should_retry` false or the attempt list exhausted. -/
theorem retryLoop_spec {α : Type} (func : ℕ → Except PyExc α)
    (config : RetryConfig) :
    ∀ (m a : ℕ) (last : Option PyExc), 1 ≤ m →
      ∃ k, (retryLoop func config (List.range' a m) last).2 = k + 1 ∧
        k + 1 ≤ m ∧
        (∀ j, a ≤ j → j < a + k →
          ∃ e, func j = .error e ∧ should_retry e j config = true) ∧
        (match (retryLoop func config (List.range' a m) last).1 with
         | .ok v => func (a + k) = .ok v
         | .error (some e) => func (a + k) = .error e ∧
             (should_retry e (a + k) config = false ∨ k + 1 = m)
         | .error none => False) := by
  intro m
  induction m with
  | zero => intro a last h; omega
  | succ m ih =>
    intro a last _
    rw [List.range'_succ]
    cases hf : func a with
    | ok v =>
      refine ⟨0, by simp [retryLoop, hf], by omega,
        fun j h1 h2 => by omega, ?_⟩
      simp [retryLoop, hf]
    | error e =>
      by_cases hr : should_retry e a config = true
      · cases m with
        | zero =>
          refine ⟨0, by simp [retryLoop, hf, hr], by omega,
            fun j h1 h2 => by omega, ?_⟩
          simp only [retryLoop, hf, hr, if_pos]
          exact ⟨hf, Or.inr trivial⟩
        | succ m' =>
          obtain ⟨k', h1, h2, h3, h4⟩ := ih (a + 1) (some e) (by omega)
          have hsnd : (retryLoop func config
              (a :: List.range' (a + 1) (m' + 1)) last).2 =
              (retryLoop func config (List.range' (a + 1) (m' + 1)) (some e)).2
                + 1 := by
            simp [retryLoop, hf, hr]
          have hfst : (retryLoop func config
              (a :: List.range' (a + 1) (m' + 1)) last).1 =
              (retryLoop func config (List.range' (a + 1) (m' + 1)) (some e)).1 := by
            simp [retryLoop, hf, hr]
          refine ⟨k' + 1, by rw [hsnd, h1], by omega, ?_, ?_⟩
          · intro j hj1 hj2
            by_cases hja : j = a
            · subst hja; exact ⟨e, hf, hr⟩
            · exact h3 j (by omega) (by omega)
          · rw [hfst]
            have harith : a + (k' + 1) = (a + 1) + k' := by omega
            rw [harith]
            cases hres : (retryLoop func config
                (List.range' (a + 1) (m' + 1)) (some e)).1 with
            | ok v => rw [hres] at h4; exact h4
            | error o =>
              cases o with
              | none => rw [hres] at h4; exact h4
              | some e' =>
                rw [hres] at h4
                exact ⟨h4.1, h4.2.imp id (fun hh => by omega)⟩
      · refine ⟨0, by simp [retryLoop, hf, hr], by omega,
          fun j h1 h2 => by omega, ?_⟩
        simp only [retryLoop, hf, hr, if_neg, ite_false]
        refine ⟨hf, Or.inl ?_⟩
        simpa using hr

/-- C5: with `max_attempts >= 1` and no circuit breaker, the wrapped
function runs at most `max_attempts` times; the first normal return
ends the loop with that result; every earlier invocation failed with
retry allowed; and when the final invocation fails, its exception is
re-raised (with `should_retry` false there, so the loop also stops
early whenever `should_retry` says so). -/
theorem execute_with_retry_spec {α : Type} (func : ℕ → Except PyExc α)
    (config : RetryConfig) (h : 1 ≤ config.max_attempts) :
    ∃ k, (execute_with_retry func config).2 = k + 1 ∧
      (execute_with_retry func config).2 ≤ config.max_attempts ∧
      (∀ j, 1 ≤ j → j ≤ k →
        ∃ e, func j = .error e ∧ should_retry e j config = true) ∧
      (match (execute_with_retry func config).1 with
       | .ok v => func (k + 1) = .ok v
       | .error (some e) => func (k + 1) = .error e ∧
           should_retry e (k + 1) config = false
       | .error none => False) := by
  obtain ⟨k, h1, h2, h3, h4⟩ :=
    retryLoop_spec func config config.max_attempts 1 none h
  have hk : 1 + k = k + 1 := by omega
  refine ⟨k, h1, by unfold execute_with_retry; omega,
    fun j hj1 hj2 => h3 j hj1 (by omega), ?_⟩
  unfold execute_with_retry
  cases hres : (retryLoop func config
      (List.range' 1 config.max_attempts) none).1 with
  | ok v => rw [hres, hk] at h4; exact h4
  | error o =>
    cases o with
    | none => rw [hres] at h4; exact h4
    | some e' =>
      rw [hres, hk] at h4
      refine ⟨h4.1, ?_⟩
      rcases h4.2 with hh | hh
      · exact hh
      · have : k + 1 = config.max_attempts := hh
        rw [this]
        exact should_retry_at_max e' config

/-- Witness for C5: a function failing with a retryable
`ConnectionError` on attempts 1-2 and succeeding on attempt 3 stays
within the default `max_attempts = 3`. -/
theorem execute_with_retry_spec_witness :
    (execute_with_retry (fun n => if n < 3 then
        .error (⟨.ConnectionError, .MEDIUM, .INFRASTRUCTURE⟩ : PyExc)
      else .ok n) {}).2 ≤ ({} : RetryConfig).max_attempts := by
  obtain ⟨k, h1, h2, h3, h4⟩ := execute_with_retry_spec (fun n => if n < 3 then
      .error (⟨.ConnectionError, .MEDIUM, .INFRASTRUCTURE⟩ : PyExc)
    else .ok n) {} (by decide)
  exact h2

/-- C6: constructing an `AutomationException` (or a subclass like
`BrowserException` that does not inject one) without a non-empty
`error_code` raises `AttributeError`, because line 149 of `base.py`
calls `_generate_error_code`, which reads `self.timestamp` before line
181 has assigned it; passing an explicit non-empty `error_code` makes
construction succeed. -/
theorem automation_exception_init_spec (className message now uuid : String)
    (correlation_id : Option String) (category : ErrorCategory)
    (severity : ErrorSeverity) :
    automation_exception_init className message none correlation_id category
        severity now uuid = .error (.AttributeError "timestamp") ∧
    automation_exception_init className message (some "") correlation_id category
        severity now uuid = .error (.AttributeError "timestamp") ∧
    browser_exception_init className message none severity now uuid =
      .error (.AttributeError "timestamp") ∧
    (∀ ec : String, ec ≠ "" →
      automation_exception_init className message (some ec) correlation_id
          category severity now uuid =
        .ok { message := some message,
              error_code := some ec,
              correlation_id := some (match correlation_id with
                | some cid => if cid = "" then uuid else cid
                | none => uuid),
              category := some category,
              severity := some severity,
              timestamp := some now }) := by
  refine ⟨rfl, rfl, rfl, fun ec hec => ?_⟩
  simp only [automation_exception_init, hec, if_neg, ite_false]
  rfl

/-- Witness for C6: construction with the explicit error code
`"TEST_001"` succeeds. -/
theorem automation_exception_init_spec_witness :
    automation_exception_init "AutomationException" "Operation failed"
        (some "TEST_001") none .INFRASTRUCTURE .MEDIUM "20260101_000000_000" "uid" =
      .ok { message := some "Operation failed",
            error_code := some "TEST_001",
            correlation_id := some "uid",
            category := some .INFRASTRUCTURE,
            severity := some .MEDIUM,
            timestamp := some "20260101_000000_000" } :=
  (automation_exception_init_spec "AutomationException" "Operation failed"
    "20260101_000000_000" "uid" none .INFRASTRUCTURE .MEDIUM).2.2.2
    "TEST_001" (by decide)

/-! ### Association-list (Python dict) lemmas -/

theorem dictLookup_insert_self {β : Type} (l : List (String × β)) (k : String)
    (v : β) : dictLookup (dictInsert l k v) k = some v := by
  induction l with
  | nil => simp [dictInsert, dictLookup]
  | cons p rest ih =>
    obtain ⟨a, w⟩ := p
    by_cases h : a = k
    · simp [dictInsert, h, dictLookup]
    · simp [dictInsert, h, dictLookup, ih]

theorem dictLookup_insert_ne {β : Type} (l : List (String × β)) (k k' : String)
    (v : β) (h : k' ≠ k) :
    dictLookup (dictInsert l k v) k' = dictLookup l k' := by
  have hkk : ¬ k = k' := fun hh => h hh.symm
  induction l with
  | nil => simp [dictInsert, dictLookup, hkk]
  | cons p rest ih =>
    obtain ⟨a, w⟩ := p
    by_cases ha : a = k
    · subst ha
      simp [dictInsert, dictLookup, hkk]
    · simp [dictInsert, ha, dictLookup, ih]

theorem dictLookup_erase_ne {β : Type} (l : List (String × β)) (k k' : String)
    (h : k' ≠ k) : dictLookup (dictErase l k) k' = dictLookup l k' := by
  have hkk : ¬ k = k' := fun hh => h hh.symm
  induction l with
  | nil => simp [dictErase]
  | cons p rest ih =>
    obtain ⟨a, w⟩ := p
    by_cases ha : a = k
    · subst ha
      simp [dictErase, dictLookup, hkk]
    · simp [dictErase, ha, dictLookup, ih]

theorem dictLookup_eq_none_of_not_mem {β : Type} (l : List (String × β))
    (k : String) (h : k ∉ l.map Prod.fst) : dictLookup l k = none := by
  induction l with
  | nil => rfl
  | cons p rest ih =>
    obtain ⟨a, w⟩ := p
    simp only [List.map_cons, List.mem_cons, not_or] at h
    have ha : ¬ a = k := fun hh => h.1 hh.symm
    simp [dictLookup, ha, ih h.2]

theorem dictLookup_erase_self {β : Type} (l : List (String × β)) (k : String)
    (hn : (l.map Prod.fst).Nodup) : dictLookup (dictErase l k) k = none := by
  induction l with
  | nil => rfl
  | cons p rest ih =>
    obtain ⟨a, w⟩ := p
    simp only [List.map_cons, List.nodup_cons] at hn
    by_cases ha : a = k
    · subst ha
      simp only [dictErase, if_pos rfl]
      exact dictLookup_eq_none_of_not_mem rest a hn.1
    · simp [dictErase, ha, dictLookup, ih hn.2]

theorem dictLookup_erase_isSome {β : Type} (l : List (String × β))
    (k k' : String) (h : (dictLookup (dictErase l k) k').isSome = true) :
    (dictLookup l k').isSome = true := by
  induction l with
  | nil => simpa [dictErase] using h
  | cons p rest ih =>
    obtain ⟨a, w⟩ := p
    by_cases ha : a = k
    · subst ha
      simp only [dictErase, if_pos rfl] at h
      by_cases ha' : a = k'
      · simp [dictLookup, ha']
      · simpa [dictLookup, ha'] using h
    · by_cases ha' : a = k'
      · simp [dictLookup, ha']
      · simp only [dictErase, if_neg ha, dictLookup, if_neg ha'] at h ⊢
        exact ih h

theorem dictInsert_length {β : Type} (l : List (String × β)) (k : String)
    (v : β) : (dictInsert l k v).length =
      if (dictLookup l k).isSome then l.length else l.length + 1 := by
  induction l with
  | nil => simp [dictInsert, dictLookup]
  | cons p rest ih =>
    obtain ⟨a, w⟩ := p
    by_cases ha : a = k
    · simp [dictInsert, ha, dictLookup]
    · simp only [dictInsert, if_neg ha, dictLookup, List.length_cons, ih]
      split_ifs <;> simp

theorem dictErase_length_le {β : Type} (l : List (String × β)) (k : String) :
    (dictErase l k).length ≤ l.length := by
  induction l with
  | nil => simp [dictErase]
  | cons p rest ih =>
    obtain ⟨a, w⟩ := p
    by_cases ha : a = k
    · simp [dictErase, ha]
    · simp only [dictErase, if_neg ha, List.length_cons]
      omega

theorem mem_snd_of_dictLookup {β : Type} (l : List (String × β)) (k : String)
    (v : β) (h : dictLookup l k = some v) : v ∈ l.map Prod.snd := by
  induction l with
  | nil => simp [dictLookup] at h
  | cons p rest ih =>
    obtain ⟨a, w⟩ := p
    by_cases ha : a = k
    · simp only [dictLookup, if_pos ha, Option.some.injEq] at h
      simp [h]
    · simp only [dictLookup, if_neg ha] at h
      simp [ih h]

/-! ### Raised browser exceptions all escape their own constructor -/

/-- Because no raise site in `browser_manager.py` passes an
`error_code`, every attempted browser-exception construction raises
`AttributeError` on the unassigned `timestamp` attribute (C6). -/
theorem raise_browser_exc_attrError (cls msg : String) (sev : ErrorSeverity)
    (now uuid : String) :
    raise_browser_exc cls msg sev now uuid =
      .pyError (.AttributeError "timestamp") := rfl

/-- C8 counterexample: the claim says a page-close failure makes
`close_session` return `False`; in the code the per-page `close()` sits
in a `try/except` that only logs, so with a raising page close (and a
healthy browser close) `close_session` still returns `True` (while
removing the session). -/
theorem close_session_page_raise_counterexample :
    sampleManager.close_session "s1" true false false =
      ({ sampleManager with sessions := [] }, true) := by
  rfl

/-- C8 (amended): an untracked `session_id` leaves the manager
unchanged and returns `False`; a tracked one is always removed (other
sessions untouched), and the returned flag is `True` unless
`browser.close()` itself raised — failures of the per-page and
per-context closes are swallowed. -/
theorem close_session_spec (m : BrowserManager) (sid : String)
    (pageCloseRaises ctxCloseRaises browserCloseRaises : Bool)
    (hn : (m.sessions.map Prod.fst).Nodup) :
    (m.get_session sid = none →
      m.close_session sid pageCloseRaises ctxCloseRaises browserCloseRaises =
        (m, false)) ∧
    (∀ s, m.get_session sid = some s →
      ((m.close_session sid pageCloseRaises ctxCloseRaises
          browserCloseRaises).1.get_session sid = none ∧
       (m.close_session sid pageCloseRaises ctxCloseRaises
          browserCloseRaises).2 = !browserCloseRaises ∧
       ∀ k, k ≠ sid →
         (m.close_session sid pageCloseRaises ctxCloseRaises
            browserCloseRaises).1.get_session k = m.get_session k)) := by
  constructor
  · intro h
    unfold BrowserManager.close_session
    rw [show dictLookup m.sessions sid = none from h]
  · intro s hs
    unfold BrowserManager.close_session
    rw [show dictLookup m.sessions sid = some s from hs]
    cases browserCloseRaises <;>
      exact ⟨dictLookup_erase_self m.sessions sid hn, rfl,
        fun k hk => dictLookup_erase_ne m.sessions sid k hk⟩

/-- Witness for C8 (amended): closing the only tracked session with a
healthy browser close removes it and returns `True`. -/
theorem close_session_spec_witness :
    (sampleManager.close_session "s1" false false false).2 = !false :=
  ((close_session_spec sampleManager "s1" false false false (by decide)).2
    sampleSession rfl).2.1

/-! ### Key-set and size lemmas for the manager operations -/

theorem dictInsert_length_le {β : Type} (l : List (String × β)) (k : String)
    (v : β) : (dictInsert l k v).length ≤ l.length + 1 := by
  rw [dictInsert_length]
  split_ifs <;> omega

theorem close_session_fields (m : BrowserManager) (sid : String)
    (p c b : Bool) :
    (m.close_session sid p c b).1.max_concurrent_browsers =
      m.max_concurrent_browsers ∧
    (m.close_session sid p c b).1.max_idle_time = m.max_idle_time ∧
    (m.close_session sid p c b).1.sessions.length ≤ m.sessions.length := by
  unfold BrowserManager.close_session
  cases h : dictLookup m.sessions sid with
  | none => simp
  | some s => cases b <;> simp [dictErase_length_le]

theorem cleanup_foldl_fields (f : String → Bool) (ids : List String) :
    ∀ (m : BrowserManager) (c : ℕ),
      ((ids.foldl (fun acc session_id =>
          let r := acc.1.close_session session_id false false (f session_id)
          (r.1, acc.2 + if r.2 then 1 else 0)) (m, c)).1.max_concurrent_browsers
        = m.max_concurrent_browsers) ∧
      ((ids.foldl (fun acc session_id =>
          let r := acc.1.close_session session_id false false (f session_id)
          (r.1, acc.2 + if r.2 then 1 else 0)) (m, c)).1.max_idle_time
        = m.max_idle_time) ∧
      ((ids.foldl (fun acc session_id =>
          let r := acc.1.close_session session_id false false (f session_id)
          (r.1, acc.2 + if r.2 then 1 else 0)) (m, c)).1.sessions.length
        ≤ m.sessions.length) := by
  induction ids with
  | nil => intro m c; exact ⟨rfl, rfl, le_refl _⟩
  | cons id rest ih =>
    intro m c
    simp only [List.foldl_cons]
    have hc := close_session_fields m id false false (f id)
    obtain ⟨h1, h2, h3⟩ := ih (m.close_session id false false (f id)).1
      (c + if (m.close_session id false false (f id)).2 then 1 else 0)
    exact ⟨h1.trans hc.1, h2.trans hc.2.1, h3.trans hc.2.2⟩

theorem cleanup_fields (m : BrowserManager) (now : ℚ) (f : String → Bool) :
    (m.cleanup_idle_sessions now f).1.max_concurrent_browsers =
      m.max_concurrent_browsers ∧
    (m.cleanup_idle_sessions now f).1.max_idle_time = m.max_idle_time ∧
    (m.cleanup_idle_sessions now f).1.sessions.length ≤ m.sessions.length := by
  unfold BrowserManager.cleanup_idle_sessions
  exact cleanup_foldl_fields f _ m 0

theorem close_session_isSome (m : BrowserManager) (sid : String)
    (p c b : Bool) (k : String)
    (h : ((m.close_session sid p c b).1.get_session k).isSome = true) :
    (m.get_session k).isSome = true := by
  unfold BrowserManager.close_session at h
  unfold BrowserManager.get_session at h ⊢
  cases hl : dictLookup m.sessions sid with
  | none => rw [hl] at h; exact h
  | some s =>
    rw [hl] at h
    cases b <;> simp only at h <;>
      exact dictLookup_erase_isSome m.sessions sid k h

theorem dictInsert_dictInsert {β : Type} (l : List (String × β))
    (k : String) (v w : β) :
    dictInsert (dictInsert l k v) k w = dictInsert l k w := by
  induction l with
  | nil => simp [dictInsert]
  | cons p rest ih =>
    obtain ⟨a, u⟩ := p
    by_cases ha : a = k
    · simp [dictInsert, ha]
    · simp [dictInsert, ha, ih]

theorem get_session_insert_isSome (m : BrowserManager) (sid k : String)
    (s s' : Session) (hl : dictLookup m.sessions sid = some s) :
    ((({ m with sessions := dictInsert m.sessions sid s' }) :
      BrowserManager).get_session k).isSome = (m.get_session k).isSome := by
  unfold BrowserManager.get_session
  by_cases hk : k = sid
  · subst hk; simp [dictLookup_insert_self, hl]
  · simp [dictLookup_insert_ne _ _ _ _ hk]

/-! Equation lemmas describing each branch of `create_context`,
`create_page` and `navigate_to`. -/

theorem create_context_missing (m : BrowserManager) (now : ℚ) (sid : String)
    (ch : ℕ) (r : Except String Unit) (en eu : String)
    (hl : dictLookup m.sessions sid = none) :
    m.create_context now sid ch r en eu =
      (m, .error (raise_BrowserException ("Session " ++ sid ++ " not found")
        en eu)) := by
  unfold BrowserManager.create_context
  rw [hl]

theorem create_context_ok (m : BrowserManager) (now : ℚ) (sid : String)
    (ch : ℕ) (en eu : String) (s : Session)
    (hl : dictLookup m.sessions sid = some s) :
    m.create_context now sid ch (.ok ()) en eu =
      ({ m with sessions := (dictInsert m.sessions sid
          { s with last_activity := now, contexts := s.contexts ++ [ch] }) },
        .ok ch) := by
  unfold BrowserManager.create_context
  rw [hl]
  dsimp only
  rw [dictInsert_dictInsert]

theorem create_context_err (m : BrowserManager) (now : ℚ) (sid : String)
    (ch : ℕ) (e : String) (en eu : String) (s : Session)
    (hl : dictLookup m.sessions sid = some s) :
    ∃ err, m.create_context now sid ch (.error e) en eu =
      ({ m with sessions := (dictInsert m.sessions sid
          { s with last_activity := now }) }, .error err) := by
  unfold BrowserManager.create_context
  rw [hl]
  dsimp only
  split_ifs <;> exact ⟨_, rfl⟩

theorem create_context_isSome (m : BrowserManager) (now : ℚ) (sid : String)
    (ch : ℕ) (r : Except String Unit) (en eu : String) (k : String) :
    ((m.create_context now sid ch r en eu).1.get_session k).isSome =
      (m.get_session k).isSome := by
  cases hl : dictLookup m.sessions sid with
  | none => rw [create_context_missing m now sid ch r en eu hl]
  | some s =>
    cases r with
    | ok u =>
      cases u
      rw [create_context_ok m now sid ch en eu s hl]
      exact get_session_insert_isSome m sid k s _ hl
    | error e =>
      obtain ⟨err, heq⟩ := create_context_err m now sid ch e en eu s hl
      rw [heq]
      exact get_session_insert_isSome m sid k s _ hl

theorem create_page_missing (m : BrowserManager) (now : ℚ) (sid : String)
    (ctx : Option ℕ) (ch ph : ℕ) (rc rp : Except String Unit) (en eu : String)
    (hl : dictLookup m.sessions sid = none) :
    m.create_page now sid ctx ch ph rc rp en eu =
      (m, .error (raise_BrowserException ("Session " ++ sid ++ " not found")
        en eu)) := by
  unfold BrowserManager.create_page
  rw [hl]

theorem create_page_some_ok (m : BrowserManager) (now : ℚ) (sid : String)
    (c ch ph : ℕ) (rc : Except String Unit) (en eu : String) (s : Session)
    (hl : dictLookup m.sessions sid = some s) :
    m.create_page now sid (some c) ch ph rc (.ok ()) en eu =
      ({ m with sessions := (dictInsert m.sessions sid
          { s with last_activity := now, pages := s.pages ++ [ph] }) },
        .ok ph) := by
  unfold BrowserManager.create_page
  rw [hl]
  dsimp only
  rw [dictLookup_insert_self]
  dsimp only
  rw [dictInsert_dictInsert]

theorem create_page_some_err (m : BrowserManager) (now : ℚ) (sid : String)
    (c ch ph : ℕ) (rc : Except String Unit) (e : String) (en eu : String)
    (s : Session) (hl : dictLookup m.sessions sid = some s) :
    ∃ err, m.create_page now sid (some c) ch ph rc (.error e) en eu =
      ({ m with sessions := (dictInsert m.sessions sid
          { s with last_activity := now }) }, .error err) := by
  unfold BrowserManager.create_page
  rw [hl]
  dsimp only
  split_ifs <;> exact ⟨_, rfl⟩

theorem create_page_none_ok (m : BrowserManager) (now : ℚ) (sid : String)
    (ch ph : ℕ) (en eu : String) (s : Session)
    (hl : dictLookup m.sessions sid = some s) :
    m.create_page now sid none ch ph (.ok ()) (.ok ()) en eu =
      ({ m with sessions := (dictInsert m.sessions sid
          { s with last_activity := now, contexts := s.contexts ++ [ch], pages := s.pages ++ [ph] }) },
        .ok ph) := by
  unfold BrowserManager.create_page
  rw [hl]
  dsimp only
  rw [create_context_ok _ now sid ch en eu _
    (dictLookup_insert_self m.sessions sid { s with last_activity := now })]
  dsimp only
  rw [dictInsert_dictInsert, dictLookup_insert_self]
  dsimp only
  rw [dictInsert_dictInsert]

theorem create_page_none_rp_err (m : BrowserManager) (now : ℚ) (sid : String)
    (ch ph : ℕ) (e : String) (en eu : String) (s : Session)
    (hl : dictLookup m.sessions sid = some s) :
    ∃ err, m.create_page now sid none ch ph (.ok ()) (.error e) en eu =
      ({ m with sessions := (dictInsert m.sessions sid
          { s with last_activity := now, contexts := s.contexts ++ [ch] }) },
        .error err) := by
  unfold BrowserManager.create_page
  rw [hl]
  dsimp only
  rw [create_context_ok _ now sid ch en eu _
    (dictLookup_insert_self m.sessions sid { s with last_activity := now })]
  dsimp only
  rw [dictInsert_dictInsert]
  split_ifs <;> exact ⟨_, rfl⟩

theorem create_page_none_rc_err (m : BrowserManager) (now : ℚ) (sid : String)
    (ch ph : ℕ) (e : String) (rp : Except String Unit) (en eu : String)
    (s : Session) (hl : dictLookup m.sessions sid = some s) :
    ∃ err, m.create_page now sid none ch ph (.error e) rp en eu =
      ({ m with sessions := (dictInsert m.sessions sid
          { s with last_activity := now }) }, .error err) := by
  unfold BrowserManager.create_page
  rw [hl]
  dsimp only
  obtain ⟨err2, heq⟩ := create_context_err
    ({ m with sessions := (dictInsert m.sessions sid
      { s with last_activity := now }) }) now sid ch e en eu
    { s with last_activity := now }
    (dictLookup_insert_self m.sessions sid { s with last_activity := now })
  rw [heq]
  dsimp only
  rw [dictInsert_dictInsert]
  exact ⟨_, rfl⟩

theorem create_page_isSome (m : BrowserManager) (now : ℚ) (sid : String)
    (ctx : Option ℕ) (ch ph : ℕ) (rc rp : Except String Unit)
    (en eu : String) (k : String) :
    ((m.create_page now sid ctx ch ph rc rp en eu).1.get_session k).isSome =
      (m.get_session k).isSome := by
  cases hl : dictLookup m.sessions sid with
  | none => rw [create_page_missing m now sid ctx ch ph rc rp en eu hl]
  | some s =>
    cases ctx with
    | some c =>
      cases rp with
      | ok v =>
        cases v
        rw [create_page_some_ok m now sid c ch ph rc en eu s hl]
        exact get_session_insert_isSome m sid k s _ hl
      | error e =>
        obtain ⟨err, heq⟩ := create_page_some_err m now sid c ch ph rc e en eu s hl
        rw [heq]
        exact get_session_insert_isSome m sid k s _ hl
    | none =>
      cases rc with
      | ok u =>
        cases u
        cases rp with
        | ok v =>
          cases v
          rw [create_page_none_ok m now sid ch ph en eu s hl]
          exact get_session_insert_isSome m sid k s _ hl
        | error e =>
          obtain ⟨err, heq⟩ := create_page_none_rp_err m now sid ch ph e en eu s hl
          rw [heq]
          exact get_session_insert_isSome m sid k s _ hl
      | error e =>
        obtain ⟨err, heq⟩ := create_page_none_rc_err m now sid ch ph e rp en eu s hl
        rw [heq]
        exact get_session_insert_isSome m sid k s _ hl

theorem navigate_missing (m : BrowserManager) (now : ℚ) (sid url : String)
    (g : Except String Unit) (en eu : String)
    (hl : dictLookup m.sessions sid = none) :
    m.navigate_to now sid url g en eu =
      (m, .error (raise_BrowserException ("Session " ++ sid ++ " not found")
        en eu)) := by
  unfold BrowserManager.navigate_to
  rw [hl]

theorem navigate_found_fst (m : BrowserManager) (now : ℚ) (sid url : String)
    (g : Except String Unit) (en eu : String) (s : Session)
    (hl : dictLookup m.sessions sid = some s) :
    (m.navigate_to now sid url g en eu).1 =
      { m with sessions := (dictInsert m.sessions sid
        { s with last_activity := now }) } := by
  unfold BrowserManager.navigate_to
  rw [hl]
  dsimp only
  split_ifs with hp
  · rfl
  · cases g with
    | ok u => rfl
    | error e => dsimp only

theorem navigate_to_isSome (m : BrowserManager) (now : ℚ) (sid url : String)
    (g : Except String Unit) (en eu : String) (k : String) :
    ((m.navigate_to now sid url g en eu).1.get_session k).isSome =
      (m.get_session k).isSome := by
  cases hl : dictLookup m.sessions sid with
  | none => rw [navigate_missing m now sid url g en eu hl]
  | some s =>
    rw [navigate_found_fst m now sid url g en eu s hl]
    exact get_session_insert_isSome m sid k s _ hl

/-! The first component of `launch_browser`. -/

theorem launch_browser_fst (m : BrowserManager) (now : ℚ) (sid bn : String)
    (res : Except String Unit) (f : String → Bool) (en eu : String) :
    (m.launch_browser now sid bn res f en eu).1 =
      (let m1 := if m.max_concurrent_browsers ≤ m.sessions.length
         then (m.cleanup_idle_sessions now f).1 else m
       if m1.max_concurrent_browsers ≤ m1.sessions.length then m1
       else if bn = "chromium" ∨ bn = "chrome" ∨ bn = "firefox" ∨
           bn = "webkit" ∨ bn = "safari" then
         match res with
         | .ok _ => { m1 with sessions :=
             (dictInsert m1.sessions sid ⟨sid, bn, [], [], now, now⟩) }
         | .error _ => m1
       else m1) := by
  unfold BrowserManager.launch_browser
  dsimp only
  split_ifs <;> first
    | rfl
    | (cases res with
       | ok u => rfl
       | error e =>
         dsimp only
         split_ifs <;> rfl)

theorem launch_browser_length (m : BrowserManager) (now : ℚ)
    (sid bn : String) (res : Except String Unit) (f : String → Bool)
    (en eu : String) (hinv : m.sessions.length ≤ m.max_concurrent_browsers) :
    (m.launch_browser now sid bn res f en eu).1.sessions.length ≤
      m.max_concurrent_browsers := by
  rw [launch_browser_fst]
  have hcf := cleanup_fields m now f
  have key : ∀ m1 : BrowserManager,
      m1.max_concurrent_browsers = m.max_concurrent_browsers →
      m1.sessions.length ≤ m.max_concurrent_browsers →
      ((if m1.max_concurrent_browsers ≤ m1.sessions.length then m1
        else if bn = "chromium" ∨ bn = "chrome" ∨ bn = "firefox" ∨
            bn = "webkit" ∨ bn = "safari" then
          match res with
          | .ok _ => ({ m1 with sessions :=
              (dictInsert m1.sessions sid ⟨sid, bn, [], [], now, now⟩) } :
                BrowserManager)
          | .error _ => m1
        else m1) : BrowserManager).sessions.length ≤
        m.max_concurrent_browsers := by
    intro m1 hmax hlen
    by_cases h2 : m1.max_concurrent_browsers ≤ m1.sessions.length
    · rw [if_pos h2]; exact hlen
    · rw [if_neg h2]
      have hins := dictInsert_length_le m1.sessions sid
        (⟨sid, bn, [], [], now, now⟩ : Session)
      split_ifs with h3
      · cases res with
        | ok u =>
          show (dictInsert m1.sessions sid _).length ≤ _
          omega
        | error e => exact hlen
      · exact hlen
  dsimp only
  by_cases h1 : m.max_concurrent_browsers ≤ m.sessions.length
  · rw [if_pos h1]
    exact key (m.cleanup_idle_sessions now f).1 hcf.1 (hcf.2.2.trans hinv)
  · rw [if_neg h1]
    exact key m rfl hinv

/-- C9: the error handler of `navigate_to` selects the exception class
by keyword precedence as the claim states (`crash`/`terminated`/
`disconnected`/`closed` first, then `timeout`/`net::`/`dns`/
`connection`, else plain `BrowserException`), and `navigate_to` returns
`True` when `page.goto` succeeds — but because none of the raise sites
passes an `error_code`, what actually propagates on every failure is
the constructor's `AttributeError`, not the selected exception. -/
theorem navigate_to_spec :
    navigate_error_class "Target crashed" = "BrowserCrashException" ∧
    navigate_error_class "Connection closed by peer" = "BrowserCrashException" ∧
    navigate_error_class "net::ERR_TIMED_OUT" = "BrowserNavigationException" ∧
    navigate_error_class "Strange failure" = "BrowserException" ∧
    (∀ (m : BrowserManager) (now : ℚ) (sid url : String) (en eu : String)
      (s : Session), m.get_session sid = some s → s.pages ≠ [] →
      (m.navigate_to now sid url (.ok ()) en eu).2 = .ok true) ∧
    (∀ (m : BrowserManager) (now : ℚ) (sid url e : String) (en eu : String)
      (s : Session), m.get_session sid = some s → s.pages ≠ [] →
      (m.navigate_to now sid url (.error e) en eu).2 =
        .error (.pyError (.AttributeError "timestamp"))) := by
  refine ⟨by decide, by decide, by decide, by decide, ?_, ?_⟩
  · intro m now sid url en eu s hs hp
    unfold BrowserManager.navigate_to
    rw [show dictLookup m.sessions sid = some s from hs]
    simp [hp]
  · intro m now sid url e en eu s hs hp
    unfold BrowserManager.navigate_to
    rw [show dictLookup m.sessions sid = some s from hs]
    simp only [hp, if_neg, ite_false]
    have h1 := raise_browser_exc_attrError "BrowserCrashException"
      ("Browser crashed: " ++ ("Browser crashed during navigation to " ++ url))
      .CRITICAL en eu
    have h2 := raise_browser_exc_attrError "BrowserNavigationException"
      ("Navigation failed: " ++ ("Navigation to " ++ url ++ " failed: " ++ e))
      .MEDIUM en eu
    have h3 := raise_browser_exc_attrError "BrowserException"
      ("Unexpected error during navigation: " ++ e) .HIGH en eu
    simp only [raise_BrowserCrashException, raise_BrowserNavigationException,
      raise_BrowserException, h1, h2, h3]
    split_ifs <;> simp

/-- Witness for C9: navigating a tracked session with one page to a URL
with a successful `goto` returns `True`. -/
theorem navigate_to_spec_witness :
    (sampleManager.navigate_to 1 "s1" "http://sockshop" (.ok ()) "ts" "uid").2 =
      .ok true :=
  navigate_to_spec.2.2.2.2.1 sampleManager 1 "s1" "http://sockshop" "ts" "uid"
    sampleSession rfl (by decide)

/-- C7: a session returned by a successful `launch_browser` is tracked
under its `session_id` (found by `get_session` and listed by
`list_sessions`); a successful `create_context` appends the new context
to the session's `contexts` list, and a successful `create_page`
appends the new page to its `pages` list (creating and appending a
fresh context first when none is passed), in each case leaving every
other tracked session unchanged. -/
theorem session_tracking_spec :
    (∀ (m : BrowserManager) (now : ℚ) (sid bn : String) (f : String → Bool)
        (en eu : String) (m' : BrowserManager) (s : Session),
      m.launch_browser now sid bn (.ok ()) f en eu = (m', .ok s) →
      s.session_id = sid ∧ m'.get_session sid = some s ∧
        s ∈ m'.list_sessions) ∧
    (∀ (m : BrowserManager) (now : ℚ) (sid : String) (ch : ℕ) (en eu : String)
        (sess : Session), m.get_session sid = some sess →
      (m.create_context now sid ch (.ok ()) en eu).2 = .ok ch ∧
      (m.create_context now sid ch (.ok ()) en eu).1.get_session sid =
        some { sess with last_activity := now,
                         contexts := sess.contexts ++ [ch] } ∧
      (∀ k, k ≠ sid →
        (m.create_context now sid ch (.ok ()) en eu).1.get_session k =
          m.get_session k)) ∧
    (∀ (m : BrowserManager) (now : ℚ) (sid : String) (c ch ph : ℕ)
        (rc : Except String Unit) (en eu : String) (sess : Session),
      m.get_session sid = some sess →
      (m.create_page now sid (some c) ch ph rc (.ok ()) en eu).2 = .ok ph ∧
      (m.create_page now sid (some c) ch ph rc (.ok ()) en eu).1.get_session
          sid =
        some { sess with last_activity := now,
                         pages := sess.pages ++ [ph] } ∧
      (∀ k, k ≠ sid →
        (m.create_page now sid (some c) ch ph rc (.ok ()) en eu).1.get_session
          k = m.get_session k)) ∧
    (∀ (m : BrowserManager) (now : ℚ) (sid : String) (ch ph : ℕ)
        (en eu : String) (sess : Session),
      m.get_session sid = some sess →
      (m.create_page now sid none ch ph (.ok ()) (.ok ()) en eu).2 = .ok ph ∧
      (m.create_page now sid none ch ph (.ok ()) (.ok ()) en eu).1.get_session
          sid =
        some { sess with last_activity := now,
                         contexts := sess.contexts ++ [ch],
                         pages := sess.pages ++ [ph] } ∧
      (∀ k, k ≠ sid →
        (m.create_page now sid none ch ph (.ok ()) (.ok ()) en eu).1.get_session
          k = m.get_session k)) := by
  refine ⟨?_, ?_, ?_, ?_⟩
  · intro m now sid bn f en eu m' s h
    unfold BrowserManager.launch_browser at h
    dsimp only at h
    split_ifs at h <;>
      (rw [Prod.mk.injEq] at h
       obtain ⟨hm, hs⟩ := h
       first
         | exact absurd hs (fun hh => Except.noConfusion hh)
         | (rw [Except.ok.injEq] at hs
            subst hs
            subst hm
            exact ⟨rfl, dictLookup_insert_self _ _ _,
              mem_snd_of_dictLookup _ sid _ (dictLookup_insert_self _ _ _)⟩))
  · intro m now sid ch en eu sess hs
    have heq := create_context_ok m now sid ch en eu sess hs
    refine ⟨by rw [heq], by rw [heq]; exact dictLookup_insert_self _ _ _,
      fun k hk => ?_⟩
    rw [heq]
    show dictLookup (dictInsert m.sessions sid _) k = _
    exact dictLookup_insert_ne _ _ _ _ hk
  · intro m now sid c ch ph rc en eu sess hs
    have heq := create_page_some_ok m now sid c ch ph rc en eu sess hs
    refine ⟨by rw [heq], by rw [heq]; exact dictLookup_insert_self _ _ _,
      fun k hk => ?_⟩
    rw [heq]
    show dictLookup (dictInsert m.sessions sid _) k = _
    exact dictLookup_insert_ne _ _ _ _ hk
  · intro m now sid ch ph en eu sess hs
    have heq := create_page_none_ok m now sid ch ph en eu sess hs
    refine ⟨by rw [heq], by rw [heq]; exact dictLookup_insert_self _ _ _,
      fun k hk => ?_⟩
    rw [heq]
    show dictLookup (dictInsert m.sessions sid _) k = _
    exact dictLookup_insert_ne _ _ _ _ hk

/-- Witness for C7: creating a context in the tracked session `"s1"` of
the sample manager returns the new context handle. -/
theorem session_tracking_spec_witness :
    (sampleManager.create_context 1 "s1" 7 (.ok ()) "ts" "uid").2 = .ok 7 :=
  (session_tracking_spec.2.1 sampleManager 1 "s1" 7 "ts" "uid"
    sampleSession rfl).1

/-- C10: the number of tracked sessions never exceeds
`max_concurrent_browsers`: `launch_browser` refuses to add a session at
the limit after reclaiming idle sessions, and every other operation
only removes sessions or leaves the tracked set unchanged.  However, at
the limit the claimed
`BrowserException("Maximum concurrent browsers reached")` never
materialises: its construction (no `error_code` passed) raises
`AttributeError`, which is what propagates — shown concretely on
`limitManager`. -/
theorem launch_browser_limit_spec :
    (limitManager.launch_browser 0 "s2" "chromium" (.ok ()) (fun _ => false)
        "ts" "uid" =
      (limitManager, .error (.pyError (.AttributeError "timestamp")))) ∧
    (∀ (m : BrowserManager) (now : ℚ) (sid bn : String)
        (res : Except String Unit) (f : String → Bool) (en eu : String),
      m.sessions.length ≤ m.max_concurrent_browsers →
      (m.launch_browser now sid bn res f en eu).1.sessions.length ≤
        m.max_concurrent_browsers) ∧
    (∀ (m : BrowserManager) (sid : String) (p c b : Bool) (k : String),
      ((m.close_session sid p c b).1.get_session k).isSome = true →
      (m.get_session k).isSome = true) ∧
    (∀ (m : BrowserManager) (now : ℚ) (sid : String) (ch : ℕ)
        (r : Except String Unit) (en eu : String) (k : String),
      ((m.create_context now sid ch r en eu).1.get_session k).isSome =
        (m.get_session k).isSome) ∧
    (∀ (m : BrowserManager) (now : ℚ) (sid : String) (ctx : Option ℕ)
        (ch ph : ℕ) (rc rp : Except String Unit) (en eu : String)
        (k : String),
      ((m.create_page now sid ctx ch ph rc rp en eu).1.get_session k).isSome =
        (m.get_session k).isSome) ∧
    (∀ (m : BrowserManager) (now : ℚ) (sid url : String)
        (g : Except String Unit) (en eu : String) (k : String),
      ((m.navigate_to now sid url g en eu).1.get_session k).isSome =
        (m.get_session k).isSome) := by
  refine ⟨?_, launch_browser_length, close_session_isSome, create_context_isSome,
    create_page_isSome, navigate_to_isSome⟩
  have hclean : limitManager.cleanup_idle_sessions 0 (fun _ => false) =
      (limitManager, 0) := by
    unfold BrowserManager.cleanup_idle_sessions
    have hfilter : List.filter
        (fun p => decide (limitManager.max_idle_time < 0 - p.2.last_activity))
        limitManager.sessions = [] := by
      show List.filter _ [("s1", sampleSession)] = []
      simp only [List.filter_cons, List.filter_nil]
      norm_num [limitManager, sampleSession]
    dsimp only
    rw [hfilter]
    rfl
  have hlen : limitManager.max_concurrent_browsers ≤
      limitManager.sessions.length := by
    norm_num [limitManager]
  unfold BrowserManager.launch_browser
  dsimp only
  rw [if_pos hlen, hclean]
  rw [if_pos hlen]
  rfl

/-- Witness for C10: launching into an empty single-slot manager keeps
the session count within the limit. -/
theorem launch_browser_limit_spec_witness :
    (({ sessions := []
        max_concurrent_browsers := 1
        max_idle_time := 3600 } : BrowserManager).launch_browser 0 "s1"
      "chromium" (.ok ()) (fun _ => false) "ts" "uid").1.sessions.length ≤ 1 :=
  launch_browser_limit_spec.2.1
    { sessions := []
      max_concurrent_browsers := 1
      max_idle_time := 3600 } 0 "s1" "chromium" (.ok ()) (fun _ => false)
    "ts" "uid" (by decide)

end SockShop
